import Mathlib

/-!
Shallow embedding of `src/process.py` (class `Reader`): a pandas DataFrame
with columns `dateTime`, `stationName`, `tideValue`, and the methods
`__init__` (`pd.read_csv`), `station_tides`, `max_tides`, `min_tides`,
`mean_tides`, `station_graph`, `add_data`, `write_data`.

Modelling choices, stated once:

* Cell values are the CSV text, i.e. `String`.  `pd.to_numeric(...,
  errors='coerce').fillna(0)` is modelled by `toNumeric : String → ℚ`
  (rationals stand in for floats; every decimal literal is an exact
  rational, so no rounding issue arises for the properties below).
  The in-place column assignment
  `self.data['tideValue'] = pd.to_numeric(...).fillna(0)` stores the
  coerced value back into the frame; in the string model a cell whose
  text already denotes a number keeps its text (same numeric value) and
  a non-numeric cell becomes the text "0.0" (the value 0 that pandas
  stores and later serializes).
* Timestamps are their ISO-8601 strings, compared lexicographically.
  For the single uniform format the repository uses this order is the
  chronological order, and `pd.to_datetime` is an order-isomorphism onto
  parsed timestamps; it is therefore modelled as the identity on the
  stored string.
* A delimited file on disk is `Option CsvFile`: `none` is a missing or
  unreadable file (where `pd.read_csv` raises), `some` is its parsed
  header and rows (`pd.read_csv` succeeds and performs no schema check).
* `pandas.DataFrame.pivot` raises `ValueError: Index contains duplicate
  entries, cannot reshape` on a duplicate (index, column) pair;
  otherwise it yields the sorted distinct index, the sorted distinct
  columns, and the looked-up cell (NaN, i.e. `none`, when absent).
* `.loc[a:b]` label slicing on a sorted index keeps exactly the labels
  `t` with `a ≤ t ≤ b`, inclusive, each `none` bound meaning unbounded.
  On the default `RangeIndex` of `self.data`, a *string* label in a
  slice raises `TypeError: cannot do slice indexing on RangeIndex with
  these indexers`; `[None:None]` is the full frame.
* `matplotlib` calls render only; `station_graph` is modelled up to the
  data shaping and the column selection `df1[station_name]` (a
  `KeyError` when the station is not a pivot column).
-/

/-- One row of `self.data`: the three logical columns. -/
structure Row where
  dateTime : String
  stationName : String
  tideValue : String
deriving DecidableEq, Repr

/-- The state of a `Reader` instance: `self.filename` and `self.data`
(well-formed case, after the three columns have been identified). -/
structure Reader where
  filename : String
  data : List Row
deriving DecidableEq, Repr

/-! ### Numeric coercion: `pd.to_numeric(..., errors='coerce').fillna(0)` -/

/-- Digit characters to their value; `none` on a non-digit. -/
def digitsToNat (cs : List Char) : Nat :=
  cs.foldl (fun a c => 10 * a + (c.toNat - 48)) 0

/-- An unsigned decimal literal: digits, optionally a dot and more digits
(at least one digit overall, as `float(...)` requires). -/
def parseUnsigned (cs : List Char) : Option ℚ :=
  match cs.span (· ≠ '.') with
  | (intPart, []) =>
    if intPart ≠ [] ∧ intPart.all Char.isDigit then
      some (digitsToNat intPart)
    else none
  | (intPart, _ :: fracPart) =>
    if (intPart ≠ [] ∨ fracPart ≠ []) ∧ intPart.all Char.isDigit ∧
        fracPart.all Char.isDigit then
      some ((digitsToNat intPart : ℚ) +
        (digitsToNat fracPart : ℚ) / (10 : ℚ) ^ fracPart.length)
    else none

/-- Parse a (possibly signed) decimal literal, `none` when `pd.to_numeric`
would produce NaN for this cell. -/
def parseDecimal (s : String) : Option ℚ :=
  match s.toList with
  | '-' :: rest => (parseUnsigned rest).map Neg.neg
  | '+' :: rest => parseUnsigned rest
  | cs => parseUnsigned cs

/-- `pd.to_numeric(s, errors='coerce')` followed by `.fillna(0)`. -/
def toNumeric (s : String) : ℚ :=
  (parseDecimal s).getD 0

/-- What the in-place assignment
`self.data['tideValue'] = pd.to_numeric(...).fillna(0).astype('float')`
leaves stored in a cell, at string granularity: a numeric text keeps its
(equal-valued) text, a non-numeric one becomes the stored 0. -/
def coerceCell (s : String) : String :=
  match parseDecimal s with
  | some _ => s
  | none => "0.0"

/-- The whole-column effect of the coercing assignment on one row. -/
def coerceRow (r : Row) : Row :=
  { r with tideValue := coerceCell r.tideValue }

/-- The mutation of `self.data` shared by `max_tides`, `min_tides`,
`mean_tides` and `station_graph`. -/
def coerceData (rd : Reader) : Reader :=
  { rd with data := rd.data.map coerceRow }

/-! ### Pivoting: `self.data.pivot(index='dateTime', columns='stationName',
values='tideValue')` -/

/-- Insert into a strictly sorted list of distinct strings (pandas keeps
index and columns sorted and unique). -/
def insertUniq (x : String) : List String → List String
  | [] => [x]
  | y :: ys =>
    if x = y then y :: ys
    else if x < y then x :: y :: ys
    else y :: insertUniq x ys

/-- The sorted distinct values of a list, as pandas uses for a pivot's
index and columns. -/
def sortedUniq (l : List String) : List String :=
  l.foldr insertUniq []

/-- The cell of the pivoted frame at (dateTime, stationName): the value of
the matching row, NaN (`none`) when no row matches. -/
def lookupCell (df : List Row) (t s : String) : Option String :=
  (df.find? (fun r => r.dateTime = t && r.stationName = s)).map (·.tideValue)

/-- `True` iff two rows share a (dateTime, stationName) pair — the
condition under which `DataFrame.pivot` raises. -/
def hasDupPair : List Row → Bool
  | [] => false
  | r :: rs =>
    rs.any (fun r2 => r2.dateTime = r.dateTime && r2.stationName = r.stationName)
      || hasDupPair rs

/-- One row of a pivoted frame: the dateTime label and, per station
column in order, the optional cell. -/
abbrev PivotRow := String × List (String × Option String)

/-- The message of the `ValueError` pandas raises on an ambiguous pivot. -/
def dupMsg : String := "Index contains duplicate entries, cannot reshape"

/-- The reshaped frame a conflict-free pivot produces: sorted distinct
dateTime index, sorted distinct station columns, looked-up cells. -/
def pivotBody (df : List Row) : List PivotRow :=
  (sortedUniq (df.map (·.dateTime))).map (fun t =>
    (t, (sortedUniq (df.map (·.stationName))).map (fun s => (s, lookupCell df t s))))

/-- `DataFrame.pivot(index='dateTime', columns='stationName',
values='tideValue')`. -/
def pivot (df : List Row) : Except String (List PivotRow) :=
  if hasDupPair df then .error dupMsg
  else .ok (pivotBody df)

/-- Whether a label is inside the (inclusive, optionally unbounded)
window of a `.loc[time_from:time_to]` slice on a sorted label index. -/
def inWindow (time_from time_to : Option String) (t : String) : Bool :=
  (match time_from with | none => true | some a => a ≤ t) &&
  (match time_to with | none => true | some b => t ≤ b)

/-- `df.loc[time_from:time_to, :]` on the pivoted (sorted-index) frame. -/
def locSlice (time_from time_to : Option String) (p : List PivotRow) : List PivotRow :=
  p.filter (fun pr => inWindow time_from time_to pr.1)

/-- `self.data.loc[time_from:time_to, :]` where `self.data` still has its
default `RangeIndex`: any string label raises `TypeError`; the
`[None:None]` slice succeeds (its value is then discarded by the caller). -/
def rangeLocCheck (time_from time_to : Option String) : Except String Unit :=
  match time_from, time_to with
  | none, none => .ok ()
  | _, _ => .error "cannot do slice indexing on RangeIndex with these indexers"

/-! ### The `Reader` methods -/

/-- `station_tides(self, station_name, time_from=None, time_to=None)`:
parses `dateTime` in place (identity here), pivots the *whole* frame —
`station_name` is never consulted — and label-slices the result.
Returns the post-call `self` together with the returned frame. -/
def station_tides (rd : Reader) (station_name : String)
    (time_from time_to : Option String) :
    Reader × Except String (List PivotRow) :=
  (rd, (pivot rd.data).map (locSlice time_from time_to))

/-- `max` of a pandas group (groups are never empty). -/
def aggMax : List ℚ → ℚ
  | [] => 0
  | q :: qs => qs.foldl max q

/-- `min` of a pandas group. -/
def aggMin : List ℚ → ℚ
  | [] => 0
  | q :: qs => qs.foldl min q

/-- `mean` of a pandas group. -/
def aggMean (l : List ℚ) : ℚ :=
  (l.foldl (· + ·) 0) / (l.length : ℚ)

/-- The sorted group keys of `self.data.groupby('stationName')`. -/
def groupStations (df : List Row) : List String :=
  sortedUniq (df.map (·.stationName))

/-- The `tideValue` entries of one station's group, in row order, as the
numbers the (already coerced) column holds. -/
def stationValues (df : List Row) (s : String) : List ℚ :=
  (df.filter (fun r => r.stationName = s)).map (fun r => toNumeric r.tideValue)

/-- `self.data.groupby('stationName').apply(lambda df: f(df.tideValue))`. -/
def groupApply (f : List ℚ → ℚ) (df : List Row) : List (String × ℚ) :=
  (groupStations df).map (fun s => (s, f (stationValues df s)))

/-- `max_tides(self, time_from=None, time_to=None)`: coerces the
`tideValue` column in place, parses `dateTime` in place, evaluates the
`RangeIndex` slice `self.data.loc[time_from:time_to, :]` (whose result is
assigned to `df` and immediately overwritten), then groups the *full*
`self.data` by station and takes each group's max.  Returns the post-call
`self` and the returned value (or the raised error). -/
def max_tides (rd : Reader) (time_from time_to : Option String) :
    Reader × Except String (List (String × ℚ)) :=
  let rd1 := coerceData rd
  (rd1, (rangeLocCheck time_from time_to).map (fun _ => groupApply aggMax rd1.data))

/-- `min_tides`: as `max_tides` with each group's min. -/
def min_tides (rd : Reader) (time_from time_to : Option String) :
    Reader × Except String (List (String × ℚ)) :=
  let rd1 := coerceData rd
  (rd1, (rangeLocCheck time_from time_to).map (fun _ => groupApply aggMin rd1.data))

/-- `mean_tides`: as `max_tides` with each group's mean. -/
def mean_tides (rd : Reader) (time_from time_to : Option String) :
    Reader × Except String (List (String × ℚ)) :=
  let rd1 := coerceData rd
  (rd1, (rangeLocCheck time_from time_to).map (fun _ => groupApply aggMean rd1.data))

/-- `station_graph(self, station_name, time_from=None, time_to=None)`:
coerces `tideValue` in place, pivots the raw frame (no `to_datetime`
here), label-slices, selects `df1[station_name]` (a `KeyError` when the
station is not a column) and hands the series to matplotlib.  Modelled up
to rendering: the post-call `self` and success/failure of the shaping. -/
def station_graph (rd : Reader) (station_name : String)
    (time_from time_to : Option String) :
    Reader × Except String Unit :=
  let rd1 := coerceData rd
  (rd1, do
    let p ← pivot rd1.data
    let _p1 := locSlice time_from time_to p
    if station_name ∈ groupStations rd1.data then .ok ()
    else .error "KeyError")

/-- `add_data(self, date_time, station_name, tide_value)`: builds the
one-row frame, concatenates — and returns the concatenation *without
assigning `self.data`*.  Returned: the post-call `self` (unchanged) and
the value the method returns. -/
def add_data (rd : Reader) (date_time station_name tide_value : String) :
    Reader × List Row :=
  let df1 := rd.data
  let df2 := [Row.mk date_time station_name tide_value]
  (rd, df1 ++ df2)

/-! ### Files: `pd.read_csv` and `DataFrame.to_csv` -/

/-- A parsed delimited file: header row and data rows. -/
structure CsvFile where
  header : List String
  rows : List (List String)
deriving DecidableEq, Repr

/-- `pd.read_csv(filename)`: raises iff the file is missing or unreadable
(`none`); performs no schema validation on a readable file. -/
def read_csv (file : Option CsvFile) : Except String CsvFile :=
  match file with
  | none => .error "FileNotFoundError"
  | some f => .ok f

/-- The generic state `__init__` builds: `self.filename` and the frame
exactly as `read_csv` returned it, columns unchecked. -/
structure RawReader where
  filename : String
  data : CsvFile
deriving DecidableEq, Repr

/-- `Reader.__init__(self, filename)`. -/
def reader_init (filename : String) (file : Option CsvFile) :
    Except String RawReader :=
  (read_csv file).map (fun f => { filename := filename, data := f })

/-- The serialized rows of `DataFrame.to_csv`, with the auto-generated
leading index column, numbering from `i`. -/
def csvRowsFrom (i : Nat) : List Row → List (List String)
  | [] => []
  | r :: rs => [toString i, r.dateTime, r.stationName, r.tideValue] :: csvRowsFrom (i + 1) rs

/-- `write_data(self, filename)`, i.e. `self.data.to_csv(filename)`:
header with the unnamed index column, then the rows in frame order. -/
def write_data (rd : Reader) : CsvFile :=
  { header := ["", "dateTime", "stationName", "tideValue"],
    rows := csvRowsFrom 0 rd.data }

/-- Read one reading out of a re-loaded frame's row, given the column
positions of the three required columns. -/
def extractRow (di si vi : Nat) (cells : List String) : Option Row := do
  let d ← cells.get? di
  let s ← cells.get? si
  let v ← cells.get? vi
  pure { dateTime := d, stationName := s, tideValue := v }

/-- Read all readings of a re-loaded frame, in row order. -/
def extractRowsAux (di si vi : Nat) : List (List String) → Option (List Row)
  | [] => some []
  | c :: cs => do
    let r ← extractRow di si vi c
    let rs ← extractRowsAux di si vi cs
    pure (r :: rs)

/-- The reading sequence a loaded frame holds: locate the three required
columns in the header (`none` when one is absent — the later `KeyError`)
and read each row. -/
def extractReadings (f : CsvFile) : Option (List Row) := do
  let di ← f.header.findIdx? (· == "dateTime")
  let si ← f.header.findIdx? (· == "stationName")
  let vi ← f.header.findIdx? (· == "tideValue")
  extractRowsAux di si vi f.rows

/-! ### Helper lemmas -/

/-- The key a pivot groups by. -/
def rowKey (r : Row) : String × String := (r.dateTime, r.stationName)

theorem mem_insertUniq (x a : String) (l : List String) :
    a ∈ insertUniq x l ↔ a = x ∨ a ∈ l := by
  induction l with
  | nil => simp [insertUniq]
  | cons y ys ih =>
    simp only [insertUniq]
    split_ifs with hxy hlt
    · subst hxy
      simp only [List.mem_cons]
      tauto
    · simp [List.mem_cons]
    · simp only [List.mem_cons, ih]
      tauto

theorem mem_sortedUniq (a : String) (l : List String) :
    a ∈ sortedUniq l ↔ a ∈ l := by
  induction l with
  | nil => simp [sortedUniq]
  | cons y ys ih =>
    simp only [sortedUniq, List.foldr_cons, List.mem_cons]
    rw [show List.foldr insertUniq [] ys = sortedUniq ys from rfl] at *
    rw [mem_insertUniq, ih]

theorem pairwise_insertUniq (x : String) (l : List String)
    (h : l.Pairwise (· < ·)) : (insertUniq x l).Pairwise (· < ·) := by
  induction l with
  | nil => simp [insertUniq]
  | cons y ys ih =>
    rcases List.pairwise_cons.mp h with ⟨hy, hys⟩
    simp only [insertUniq]
    split_ifs with hxy hlt
    · exact h
    · refine List.pairwise_cons.mpr ⟨?_, h⟩
      intro b hb
      rcases List.mem_cons.mp hb with rfl | hb
      · exact hlt
      · exact lt_trans hlt (hy b hb)
    · have hyx : y < x := lt_of_le_of_ne (le_of_not_lt hlt) (Ne.symm hxy)
      refine List.pairwise_cons.mpr ⟨?_, ih hys⟩
      intro b hb
      rcases (mem_insertUniq x b ys).mp hb with rfl | hb
      · exact hyx
      · exact hy b hb

theorem pairwise_sortedUniq (l : List String) :
    (sortedUniq l).Pairwise (· < ·) := by
  induction l with
  | nil => simp [sortedUniq]
  | cons y ys ih => exact pairwise_insertUniq y _ ih

theorem hasDupPair_eq_false_iff (l : List Row) :
    hasDupPair l = false ↔ (l.map rowKey).Nodup := by
  induction l with
  | nil => simp [hasDupPair]
  | cons r rs ih =>
    simp only [hasDupPair, Bool.or_eq_false_iff, List.map_cons, List.nodup_cons, ih,
      List.any_eq_false, List.mem_map]
    constructor
    · rintro ⟨h1, h2⟩
      refine ⟨?_, h2⟩
      rintro ⟨r2, hr2, hkey⟩
      have := h1 r2 hr2
      simp only [rowKey] at hkey
      have hd : r2.dateTime = r.dateTime := congrArg Prod.fst hkey
      have hs : r2.stationName = r.stationName := congrArg Prod.snd hkey
      simp [hd, hs] at this
    · rintro ⟨h1, h2⟩
      refine ⟨?_, h2⟩
      intro r2 hr2
      by_contra hc
      simp only [Bool.not_eq_false, Bool.and_eq_true, decide_eq_true_eq] at hc
      exact h1 ⟨r2, hr2, by simp [rowKey, hc.1, hc.2]⟩

theorem key_unique (l : List Row) (h : (l.map rowKey).Nodup)
    (r1 r2 : Row) (h1 : r1 ∈ l) (h2 : r2 ∈ l) (hk : rowKey r1 = rowKey r2) :
    r1 = r2 := by
  induction l with
  | nil => cases h1
  | cons x xs ih =>
    simp only [List.map_cons, List.nodup_cons, List.mem_map] at h
    rcases List.mem_cons.mp h1 with rfl | h1' <;>
      rcases List.mem_cons.mp h2 with rfl | h2'
    · rfl
    · exact absurd ⟨r2, h2', hk.symm⟩ h.1
    · exact absurd ⟨r1, h1', hk⟩ h.1
    · exact ih h.2 h1' h2'

theorem lookupCell_of_mem (l : List Row) (h : (l.map rowKey).Nodup)
    (r : Row) (hr : r ∈ l) :
    lookupCell l r.dateTime r.stationName = some r.tideValue := by
  have hfind : (l.find? (fun r2 => r2.dateTime = r.dateTime &&
      r2.stationName = r.stationName)).isSome := by
    rw [List.find?_isSome]
    exact ⟨r, hr, by simp⟩
  rcases Option.isSome_iff_exists.mp hfind with ⟨r2, hr2⟩
  have hp := List.find?_some hr2
  have hmem := List.mem_of_find?_eq_some hr2
  simp only [Bool.and_eq_true, decide_eq_true_eq] at hp
  have : r2 = r := key_unique l h r2 r hmem hr (by simp [rowKey, hp.1, hp.2])
  simp [lookupCell, hr2, this]

/-! ### Support for the claim theorems -/

theorem stationValues_cons (r : Row) (rs : List Row) (s : String) :
    stationValues (r :: rs) s =
      if r.stationName = s then toNumeric r.tideValue :: stationValues rs s
      else stationValues rs s := by
  by_cases h : r.stationName = s <;> simp [stationValues, List.filter_cons, h]

theorem stationValues_map_congr (g1 g2 : Row → Row)
    (hs : ∀ r, (g1 r).stationName = (g2 r).stationName)
    (hv : ∀ r, toNumeric (g1 r).tideValue = toNumeric (g2 r).tideValue)
    (l : List Row) (s : String) :
    stationValues (l.map g1) s = stationValues (l.map g2) s := by
  induction l with
  | nil => rfl
  | cons r rs ih =>
    simp only [List.map_cons, stationValues_cons, hs r, hv r, ih]

theorem groupApply_map_congr (f : List ℚ → ℚ) (g1 g2 : Row → Row)
    (hs : ∀ r, (g1 r).stationName = (g2 r).stationName)
    (hv : ∀ r, toNumeric (g1 r).tideValue = toNumeric (g2 r).tideValue)
    (l : List Row) :
    groupApply f (l.map g1) = groupApply f (l.map g2) := by
  have hgs : groupStations (l.map g1) = groupStations (l.map g2) := by
    unfold groupStations
    rw [List.map_map, List.map_map]
    congr 1
    exact List.map_congr_left (fun r _ => hs r)
  unfold groupApply
  rw [hgs]
  exact List.map_congr_left
    (fun s _ => by rw [stationValues_map_congr g1 g2 hs hv])

/-- Replace every `tideValue` cell that fails numeric coercion by the
literal "0" (the spec's reading of the lenient-coercion policy). -/
def replaceCell (s : String) : String :=
  if (parseDecimal s).isSome then s else "0"

/-- `replaceCell` on a row. -/
def replaceRow (r : Row) : Row :=
  { r with tideValue := replaceCell r.tideValue }

/-- `replaceCell` on a whole table. -/
def replaceData (rd : Reader) : Reader :=
  { rd with data := rd.data.map replaceRow }

theorem parseDecimal_zero : parseDecimal "0" = some 0 := by decide

theorem parseDecimal_zero_point_zero : parseDecimal "0.0" = some 0 := by
  with_unfolding_all rfl

theorem toNumeric_coerce_replace (v : String) :
    toNumeric (coerceCell (replaceCell v)) = toNumeric (coerceCell v) := by
  unfold replaceCell coerceCell toNumeric
  cases h : parseDecimal v with
  | some q => simp [h]
  | none => simp [h, parseDecimal_zero, parseDecimal_zero_point_zero]

theorem groupApply_replace (f : List ℚ → ℚ) (rd : Reader) :
    groupApply f (coerceData (replaceData rd)).data =
      groupApply f (coerceData rd).data := by
  show groupApply f ((rd.data.map replaceRow).map coerceRow) =
    groupApply f (rd.data.map coerceRow)
  rw [List.map_map]
  exact groupApply_map_congr f (coerceRow ∘ replaceRow) coerceRow (fun r => rfl)
    (fun r => toNumeric_coerce_replace r.tideValue) rd.data

/-- The spec's §8 scenario table with a non-numeric height. -/
def mixedTable : Reader :=
  { filename := "tideReadings.csv",
    data := [{ dateTime := "2021-09-20T00:00:00Z", stationName := "X", tideValue := "1.0" },
             { dateTime := "2021-09-20T01:00:00Z", stationName := "X", tideValue := "bad" },
             { dateTime := "2021-09-20T02:00:00Z", stationName := "X", tideValue := "3.0" }] }

/-- A two-row single-station table used to exercise the aggregate window. -/
def c1Table : Reader :=
  { filename := "tideReadings.csv",
    data := [{ dateTime := "2021-09-20T01:00:00Z", stationName := "A", tideValue := "1.0" },
             { dateTime := "2021-09-20T02:00:00Z", stationName := "A", tideValue := "5.0" }] }

/-- A one-row table whose height is not numeric. -/
def badTable : Reader :=
  { filename := "tideReadings.csv",
    data := [{ dateTime := "2021-09-20T02:00:00Z", stationName := "A", tideValue := "bad" }] }

/-- A readable file whose header has none of the required columns. -/
def noColCsv : CsvFile :=
  { header := ["foo"], rows := [["x"]] }

/-! ### Claim theorems -/

/-- Claim C1 (code bug): the claim says `max_tides`/`min_tides`/`mean_tides`
restrict to readings whose timestamp lies in the window.  In the code the
windowed frame `self.data.loc[time_from:time_to, :]` is computed against
the default `RangeIndex` — raising `TypeError` for string bounds — and is
then discarded: the groupby always runs on the full table, as the last
conjunct shows (the reading at 02:00 is outside any window ending 01:30,
yet the unwindowed aggregate is the only observable behaviour, and a
windowed call never returns). -/
theorem aggregate_ignores_window :
    (max_tides c1Table (some "2021-09-20T00:00:00Z")
        (some "2021-09-20T01:30:00Z")).2 =
      .error "cannot do slice indexing on RangeIndex with these indexers" ∧
    (min_tides c1Table (some "2021-09-20T00:00:00Z")
        (some "2021-09-20T01:30:00Z")).2 =
      .error "cannot do slice indexing on RangeIndex with these indexers" ∧
    (mean_tides c1Table (some "2021-09-20T00:00:00Z")
        (some "2021-09-20T01:30:00Z")).2 =
      .error "cannot do slice indexing on RangeIndex with these indexers" ∧
    (max_tides c1Table none none).2 = .ok [("A", 5)] := by
  refine ⟨rfl, rfl, rfl, by with_unfolding_all rfl⟩

/-- Claim C2 (code bug): the claim (and the method's own doctest) says
`add_data` increases the reader's count by one and the new reading is
retrievable by later calls.  The method builds and returns the
concatenated frame but never assigns `self.data`, so the reader is
unchanged — later `station_tides`/aggregate calls run on the old table. -/
theorem add_data_does_not_update_reader (rd : Reader)
    (d s v : String) :
    (add_data rd d s v).1 = rd ∧
    (add_data rd d s v).2 = rd.data ++ [{ dateTime := d, stationName := s, tideValue := v }] ∧
    ((add_data rd d s v).2).length = rd.data.length + 1 := by
  refine ⟨rfl, rfl, by simp [add_data]⟩

/-- Claim C3 counterexample: a query does *not* leave the stored readings
unchanged — `max_tides` coerces the `tideValue` column in place, so the
stored cell "bad" becomes the stored 0. -/
theorem query_mutates_stored_readings :
    (max_tides badTable none none).1 ≠ badTable := by decide

/-- Claim C3, amended: queries preserve the number and order of readings
and their `dateTime`/`stationName` fields, and `station_tides` leaves the
table unchanged; but the aggregate and plotting queries overwrite the
stored `tideValue` column with its numeric coercion (non-numeric becomes
0), and `add_data` never mutates the table at all. -/
theorem queries_preserve_readings_up_to_coercion (rd : Reader)
    (S : String) (tf tt : Option String) :
    (station_tides rd S tf tt).1 = rd ∧
    (max_tides rd tf tt).1.data = rd.data.map coerceRow ∧
    (min_tides rd tf tt).1.data = rd.data.map coerceRow ∧
    (mean_tides rd tf tt).1.data = rd.data.map coerceRow ∧
    (station_graph rd S tf tt).1.data = rd.data.map coerceRow ∧
    (rd.data.map coerceRow).length = rd.data.length ∧
    (∀ r : Row, (coerceRow r).dateTime = r.dateTime ∧
      (coerceRow r).stationName = r.stationName) ∧
    (∀ d s v : String, (add_data rd d s v).1 = rd) := by
  refine ⟨rfl, rfl, rfl, rfl, rfl, List.length_map _ _, fun r => ⟨rfl, rfl⟩,
    fun d s v => rfl⟩

/-- Claim C5: `tideValue` cells that fail numeric coercion contribute 0 to
every aggregate — replacing each such cell by a literal 0 changes no
aggregate result — and on the spec's example heights 1.0, "bad", 3.0 the
aggregates are max = 3, min = 0, mean = 4/3, with no error raised. -/
theorem coercion_contributes_zero :
    (∀ (rd : Reader) (tf tt : Option String),
      (max_tides (replaceData rd) tf tt).2 = (max_tides rd tf tt).2 ∧
      (min_tides (replaceData rd) tf tt).2 = (min_tides rd tf tt).2 ∧
      (mean_tides (replaceData rd) tf tt).2 = (mean_tides rd tf tt).2) ∧
    (max_tides mixedTable none none).2 = .ok [("X", 3)] ∧
    (min_tides mixedTable none none).2 = .ok [("X", 0)] ∧
    (mean_tides mixedTable none none).2 = .ok [("X", 4 / 3)] := by
  refine ⟨fun rd tf tt => ?_, by with_unfolding_all rfl, by with_unfolding_all rfl,
    by with_unfolding_all rfl⟩
  refine ⟨?_, ?_, ?_⟩ <;>
    simp [max_tides, min_tides, mean_tides, groupApply_replace]

/-- Claim C8 counterexample: construction from a readable file lacking
every required column succeeds at load time, contradicting the claim that
it fails there. -/
theorem load_succeeds_without_required_columns :
    reader_init "tideReadings.csv" (some noColCsv) =
      .ok { filename := "tideReadings.csv", data := noColCsv } ∧
    "dateTime" ∉ noColCsv.header ∧ "stationName" ∉ noColCsv.header ∧
    "tideValue" ∉ noColCsv.header := by
  refine ⟨rfl, by decide, by decide, by decide⟩

/-- Claim C8, amended: `Reader.__init__` fails, with the error surfaced
immediately, iff the file is missing or unreadable; a readable file that
lacks a required column loads successfully, the lack only surfacing when
the column is first used (here: no readings can be extracted). -/
theorem load_fails_iff_file_missing :
    (∀ (fn : String) (file : Option CsvFile),
      (∃ e, reader_init fn file = .error e) ↔ file = none) ∧
    extractReadings noColCsv = none := by
  constructor
  · intro fn file
    cases file with
    | none => exact ⟨fun _ => rfl, fun _ => ⟨"FileNotFoundError", rfl⟩⟩
    | some f => simp [reader_init, read_csv, Except.map]
  · rfl

/-- Claim C10: on the empty table `max_tides` returns the empty mapping
and raises no error. -/
theorem max_tides_empty_table (fn : String) :
    max_tides { filename := fn, data := [] } none none =
      ({ filename := fn, data := [] }, .ok []) := rfl

theorem pivot_ok_shape (df : List Row) (full : List PivotRow)
    (h : pivot df = .ok full) : full = pivotBody df := by
  unfold pivot at h
  by_cases hd : hasDupPair df
  · simp [hd] at h
  · simp only [hd, Bool.false_eq_true, if_false] at h
    exact (Except.ok.inj h).symm

theorem pivot_ok_of_nodup (df : List Row)
    (h : (df.map rowKey).Nodup) : pivot df = .ok (pivotBody df) := by
  have hd : hasDupPair df = false := (hasDupPair_eq_false_iff df).mpr h
  simp [pivot, hd]

/-- A table from the spec's §8 scenario: two stations sharing a timestamp,
plus a later reading. -/
def sampleTable : Reader :=
  { filename := "tideReadings.csv",
    data := [{ dateTime := "2021-09-20T02:00:00Z", stationName := "Newlyn", tideValue := "0.937" },
             { dateTime := "2021-09-20T02:00:00Z", stationName := "Bangor", tideValue := "1.2" },
             { dateTime := "2021-09-20T03:00:00Z", stationName := "Newlyn", tideValue := "2.376" }] }

/-- The pivoted frame of `sampleTable`. -/
def samplePivot : List PivotRow :=
  [("2021-09-20T02:00:00Z", [("Bangor", some "1.2"), ("Newlyn", some "0.937")]),
   ("2021-09-20T03:00:00Z", [("Bangor", none), ("Newlyn", some "2.376")])]

/-- Claim C4: `station_tides` returns the same value — both the post-call
state and the returned frame — for any two values of its `station_name`
argument, and the returned frame's columns are all the stations occurring
in the underlying data, not only the requested one. -/
theorem station_tides_ignores_station_argument (rd : Reader)
    (s1 s2 : String) (tf tt : Option String) :
    station_tides rd s1 tf tt = station_tides rd s2 tf tt ∧
    (∀ p, (station_tides rd s1 tf tt).2 = .ok p → ∀ pr ∈ p, ∀ st : String,
      st ∈ pr.2.map Prod.fst ↔ st ∈ rd.data.map Row.stationName) := by
  refine ⟨rfl, fun p hp pr hpr st => ?_⟩
  have hst : (station_tides rd s1 tf tt).2 = (pivot rd.data).map (locSlice tf tt) := rfl
  rw [hst] at hp
  cases hpiv : pivot rd.data with
  | error e => rw [hpiv] at hp; simp [Except.map] at hp
  | ok full =>
    rw [hpiv] at hp
    simp only [Except.map] at hp
    have hpeq : p = locSlice tf tt full := (Except.ok.inj hp).symm
    subst hpeq
    have hfull : full = pivotBody rd.data := pivot_ok_shape rd.data full hpiv
    subst hfull
    have hmem : pr ∈ pivotBody rd.data := List.mem_of_mem_filter hpr
    unfold pivotBody at hmem
    rcases List.mem_map.mp hmem with ⟨t, _, rfl⟩
    simp only [List.map_map]
    have hcomp : (Prod.fst ∘ fun s : String => (s, lookupCell rd.data t s)) = id := rfl
    rw [hcomp, List.map_id]
    exact mem_sortedUniq st _

/-- Witness for C4 at a concrete table: swapping the requested station
from "Newlyn" to "Bangor" changes nothing, and the "Bangor" column is
present in a row of the result although only the full station list — not
the argument — determines the columns. -/
theorem station_tides_ignores_station_argument_witness :
    station_tides sampleTable "Newlyn" none none =
      station_tides sampleTable "Bangor" none none ∧
    ("Bangor" ∈ (samplePivot.head!).2.map Prod.fst ↔
      "Bangor" ∈ sampleTable.data.map Row.stationName) :=
  ⟨(station_tides_ignores_station_argument sampleTable "Newlyn" "Bangor"
      none none).1,
   (station_tides_ignores_station_argument sampleTable "Newlyn" "Bangor"
      none none).2 samplePivot (by with_unfolding_all rfl)
      samplePivot.head! (by with_unfolding_all decide) "Bangor"⟩

/-- Claim C7: `station_tides` surfaces the pivot's duplicate-entry
`ValueError` exactly when the table holds two readings with the same
(timestamp, station) pair, and succeeds exactly when it holds none. -/
theorem pivot_duplicate_conflict (rd : Reader) (S : String)
    (tf tt : Option String) :
    ((station_tides rd S tf tt).2 = .error dupMsg ↔
      ¬ (rd.data.map rowKey).Nodup) ∧
    ((∃ p, (station_tides rd S tf tt).2 = .ok p) ↔
      (rd.data.map rowKey).Nodup) := by
  have hst : (station_tides rd S tf tt).2 = (pivot rd.data).map (locSlice tf tt) := rfl
  by_cases hn : (rd.data.map rowKey).Nodup
  · rw [hst, pivot_ok_of_nodup rd.data hn]
    constructor
    · simp [Except.map, hn]
    · exact ⟨fun _ => hn, fun _ => ⟨locSlice tf tt (pivotBody rd.data), rfl⟩⟩
  · have hd : hasDupPair rd.data = true := by
      cases hcase : hasDupPair rd.data with
      | true => rfl
      | false => exact absurd ((hasDupPair_eq_false_iff rd.data).mp hcase) hn
    rw [hst]
    unfold pivot
    rw [hd]
    constructor
    · simp [Except.map, hn]
    · constructor
      · rintro ⟨p, hp⟩
        simp [Except.map] at hp
      · intro hcon
        exact absurd hcon hn

/-- The spec-side reading of claim C6: the windowed call succeeds and
every returned point lies inside the inclusive window (an omitted bound
constraining nothing), and the call with both bounds omitted returns the
full time-ordered series — its index is exactly the distinct timestamps
of the table in increasing order, and every reading of station `S`
appears in it under the `S` column. -/
def stationSeriesWindowed (rd : Reader) (S : String)
    (tf tt : Option String) : Prop :=
  (∃ p, (station_tides rd S tf tt).2 = .ok p ∧
    ∀ pr ∈ p, (∀ a, tf = some a → a ≤ pr.1) ∧ (∀ b, tt = some b → pr.1 ≤ b)) ∧
  (∃ p0, (station_tides rd S none none).2 = .ok p0 ∧
    (p0.map Prod.fst).Pairwise (· < ·) ∧
    (∀ t, t ∈ p0.map Prod.fst ↔ t ∈ rd.data.map Row.dateTime) ∧
    ∀ r ∈ rd.data, r.stationName = S →
      ∃ cols, (r.dateTime, cols) ∈ p0 ∧ (S, some r.tideValue) ∈ cols)

/-- Claim C6: for a table without duplicate (timestamp, station) pairs,
`station_tides` returns only points inside the inclusive `[from, to]`
window, an omitted bound is unlimited, and omitting both bounds yields
the full time-ordered series for the station. -/
theorem station_tides_windowing (rd : Reader) (S : String)
    (tf tt : Option String) (h : (rd.data.map rowKey).Nodup) :
    stationSeriesWindowed rd S tf tt := by
  have hpiv := pivot_ok_of_nodup rd.data h
  have hst : ∀ a b : Option String, (station_tides rd S a b).2 =
      .ok (locSlice a b (pivotBody rd.data)) := by
    intro a b
    show (pivot rd.data).map (locSlice a b) = _
    rw [hpiv]
    rfl
  constructor
  · refine ⟨locSlice tf tt (pivotBody rd.data), hst tf tt, fun pr hpr => ?_⟩
    have h2 := (List.mem_filter.mp hpr).2
    unfold inWindow at h2
    rw [Bool.and_eq_true] at h2
    constructor
    · intro a ha
      subst ha
      exact of_decide_eq_true h2.1
    · intro b hb
      subst hb
      exact of_decide_eq_true h2.2
  · have hfull : locSlice none none (pivotBody rd.data) = pivotBody rd.data :=
      List.filter_eq_self.mpr (fun pr _ => rfl)
    refine ⟨pivotBody rd.data, by rw [hst none none, hfull], ?_, ?_, ?_⟩
    · have hidx : (pivotBody rd.data).map Prod.fst =
          sortedUniq (rd.data.map (·.dateTime)) := by
        unfold pivotBody
        rw [List.map_map]
        exact List.map_id _
      rw [hidx]
      exact pairwise_sortedUniq _
    · intro t
      have hidx : (pivotBody rd.data).map Prod.fst =
          sortedUniq (rd.data.map (·.dateTime)) := by
        unfold pivotBody
        rw [List.map_map]
        exact List.map_id _
      rw [hidx]
      exact mem_sortedUniq t _
    · intro r hr hS
      refine ⟨(sortedUniq (rd.data.map (·.stationName))).map
        (fun s => (s, lookupCell rd.data r.dateTime s)), ?_, ?_⟩
      · have hdt : r.dateTime ∈ sortedUniq (rd.data.map (·.dateTime)) :=
          (mem_sortedUniq _ _).mpr (List.mem_map.mpr ⟨r, hr, rfl⟩)
        exact List.mem_map.mpr ⟨r.dateTime, hdt, rfl⟩
      · have hstS : S ∈ sortedUniq (rd.data.map (·.stationName)) :=
          (mem_sortedUniq _ _).mpr (List.mem_map.mpr ⟨r, hr, hS⟩)
        have hcell : lookupCell rd.data r.dateTime S = some r.tideValue := by
          rw [← hS]
          exact lookupCell_of_mem rd.data h r hr
        exact List.mem_map.mpr ⟨S, hstS, by rw [hcell]⟩

/-- Witness for C6 at a concrete windowed call on `sampleTable`. -/
theorem station_tides_windowing_witness :
    (sampleTable.data.map rowKey).Nodup ∧
    stationSeriesWindowed sampleTable "Newlyn"
      (some "2021-09-20T02:00:00Z") (some "2021-09-20T02:30:00Z") :=
  ⟨by with_unfolding_all decide,
   station_tides_windowing sampleTable "Newlyn"
     (some "2021-09-20T02:00:00Z") (some "2021-09-20T02:30:00Z")
     (by with_unfolding_all decide)⟩

theorem extractRowsAux_csvRowsFrom (l : List Row) (i : Nat) :
    extractRowsAux 1 2 3 (csvRowsFrom i l) = some l := by
  induction l generalizing i with
  | nil => rfl
  | cons r rs ih =>
    simp [csvRowsFrom, extractRowsAux, extractRow, ih]

/-- Claim C9: for a table with no duplicate (timestamp, station) pair,
`write_data` followed by `Reader.__init__` on the written file succeeds
and yields a frame holding exactly the original readings, in order and
value (the auto-generated leading index column is extra, and does not
disturb the three reading columns). -/
theorem export_load_round_trip (rd : Reader)
    (h : (rd.data.map rowKey).Nodup) :
    reader_init rd.filename (some (write_data rd)) =
      .ok { filename := rd.filename, data := write_data rd } ∧
    extractReadings (write_data rd) = some rd.data := by
  refine ⟨rfl, ?_⟩
  have h1 : extractReadings (write_data rd) =
      extractRowsAux 1 2 3 (csvRowsFrom 0 rd.data) := by
    with_unfolding_all rfl
  rw [h1]
  exact extractRowsAux_csvRowsFrom rd.data 0

/-- Witness for C9 at a concrete duplicate-free table. -/
theorem export_load_round_trip_witness :
    (sampleTable.data.map rowKey).Nodup ∧
    (reader_init sampleTable.filename (some (write_data sampleTable)) =
      .ok { filename := sampleTable.filename, data := write_data sampleTable } ∧
    extractReadings (write_data sampleTable) = some sampleTable.data) :=
  ⟨by with_unfolding_all decide,
   export_load_round_trip sampleTable (by with_unfolding_all decide)⟩
